import Mathlib

/-!
Verification of the undo/redo snapshot mechanism (src/19-memento.js) and the
order state machine (src/18-mediator.js, State-pattern section) of the
training-patterns repository.

Modelling conventions for the shallow embedding of the JavaScript source:

* Lean values are immutable, so the deep copy performed by `Memento`
  (a JSON round trip of a plain data object) is the identity on the state
  value; a `Memento` is therefore represented by the state value itself.
  The `createdAt` field of a `Memento` is read by no operation of the
  `Caretaker` and is omitted.
* A `Caretaker` together with its `Originator` is one record: field
  `originator` holds the current state of the owner (`Originator._state`),
  and `undoStack` / `redoStack` hold the two stacks.  JavaScript arrays
  push and pop at the end; the Lean lists keep the top of the stack at the
  head, so `push` is cons and `pop` takes the head.
* JavaScript methods that end without a `return` statement return
  `undefined`; where a claim asks about such a return value it is embedded
  as `none : Option Bool` (`some b` would be a boolean return).
* All embedded operations are total Lean functions: none of the concrete
  handler methods in the source contains a `throw`, so no operation can
  raise (the abstract-base-class throws are unreachable, every subclass
  overrides all methods).
-/

namespace Memento

/-- Shallow embedding of `Caretaker` (src/19-memento.js lines 40-65)
joined with its `Originator`: `originator` is the current state of the
owner, the two stacks hold the saved snapshots (top at the head). -/
structure Caretaker (σ : Type) where
  originator : σ
  undoStack : List σ
  redoStack : List σ
deriving Repr, DecidableEq

namespace Caretaker

/-- `new Caretaker(new Originator(s))`: both stacks start empty. -/
def init (s : σ) : Caretaker σ :=
  ⟨s, [], []⟩

/-- `save()`: pushes a snapshot of the current state onto `undoStack`
and clears `redoStack` (source lines 46-49). -/
def save (c : Caretaker σ) : Caretaker σ :=
  ⟨c.originator, c.originator :: c.undoStack, []⟩

/-- An arbitrary mutation of the state of the owner, subsuming
`Originator.setState(partialUpdate)` (source lines 32-34). -/
def mutate (f : σ → σ) (c : Caretaker σ) : Caretaker σ :=
  ⟨f c.originator, c.undoStack, c.redoStack⟩

/-- `undo()` (source lines 50-56): on an empty stack returns `false` and
changes nothing; otherwise pops the top snapshot, pushes a fresh snapshot
of the current state onto `redoStack`, restores the owner from the popped
snapshot and returns `true`. -/
def undo (c : Caretaker σ) : Bool × Caretaker σ :=
  match c.undoStack with
  | [] => (false, c)
  | m :: rest => (true, ⟨m, rest, c.originator :: c.redoStack⟩)

/-- `redo()` (source lines 57-63), symmetric to `undo()`. -/
def redo (c : Caretaker σ) : Bool × Caretaker σ :=
  match c.redoStack with
  | [] => (false, c)
  | m :: rest => (true, ⟨m, c.originator :: c.undoStack, rest⟩)

/-- `stats()` (source line 64). -/
def stats (c : Caretaker σ) : Nat × Nat :=
  (c.undoStack.length, c.redoStack.length)

/-- The state effect of one `undo()` call. -/
def undoStep (c : Caretaker σ) : Caretaker σ :=
  (undo c).2

/-- The state effect of one `redo()` call. -/
def redoStep (c : Caretaker σ) : Caretaker σ :=
  (redo c).2

/-- One caller-visible operation on a caretaker: a `save()` call or an
arbitrary mutation of the state of the owner. -/
inductive CareOp (σ : Type) where
  | save : CareOp σ
  | mutate (f : σ → σ) : CareOp σ

/-- Runs a sequence of operations left to right. -/
def runCare : List (CareOp σ) → Caretaker σ → Caretaker σ
  | [], c => c
  | .save :: ops, c => runCare ops c.save
  | .mutate f :: ops, c => runCare ops (mutate f c)

/-- Number of `save()` calls in a sequence of operations. -/
def countSaves : List (CareOp σ) → Nat
  | [] => 0
  | .save :: ops => countSaves ops + 1
  | .mutate _ :: ops => countSaves ops

theorem undo_redo_iterate_aux (u : List σ) :
    ∀ (s : σ) (r : List σ),
      redoStep^[u.length] (undoStep^[u.length] (⟨s, u, r⟩ : Caretaker σ)) = ⟨s, u, r⟩ := by
  induction u with
  | nil => intro s r; simp
  | cons m rest ih =>
    intro s r
    have ha : undoStep^[(m :: rest).length] (⟨s, m :: rest, r⟩ : Caretaker σ)
        = undoStep^[rest.length] (⟨m, rest, s :: r⟩ : Caretaker σ) := by
      rw [List.length_cons, Function.iterate_succ_apply]
      rfl
    have hb : redoStep^[(m :: rest).length] (undoStep^[rest.length] (⟨m, rest, s :: r⟩ : Caretaker σ))
        = redoStep (redoStep^[rest.length] (undoStep^[rest.length] (⟨m, rest, s :: r⟩ : Caretaker σ))) := by
      rw [List.length_cons, Function.iterate_succ_apply']
    rw [ha, hb, ih]
    rfl

/-- For any caretaker, undoing as many times as the undo stack is deep and
then redoing the same number of times is the identity on the whole
caretaker (owner state and both stacks). -/
theorem undo_redo_roundtrip (c : Caretaker σ) :
    redoStep^[c.undoStack.length] (undoStep^[c.undoStack.length] c) = c := by
  obtain ⟨s, u, r⟩ := c
  exact undo_redo_iterate_aux u s r

theorem runCare_undoStack_length (ops : List (CareOp σ)) :
    ∀ c : Caretaker σ, (runCare ops c).undoStack.length = countSaves ops + c.undoStack.length := by
  induction ops with
  | nil => intro c; simp [runCare, countSaves]
  | cons op ops ih =>
    intro c
    cases op with
    | save =>
      rw [runCare, countSaves, ih]
      simp [save]
      omega
    | mutate f =>
      rw [runCare, countSaves, ih]
      rfl

end Caretaker

open Caretaker in
/-- Claim C1: for every sequence of caretaker operations containing n
`save()` calls, interleaved with arbitrary mutations of the state of the
owner, calling `undo()` n times and then `redo()` n times returns the
owner (in fact the whole caretaker) to exactly the state it held just
before the first `undo()`; moreover every single `undo()` (resp. `redo()`)
restores exactly the top snapshot of the respective stack, in LIFO order. -/
theorem C1_undo_redo_inverse {σ : Type} (s0 : σ) (ops : List (CareOp σ)) :
    redoStep^[countSaves ops] (undoStep^[countSaves ops] (runCare ops (init s0)))
      = runCare ops (init s0)
    ∧ (∀ (d : Caretaker σ) (m : σ) (rest : List σ), d.undoStack = m :: rest →
        (d.undo).2.originator = m ∧ (d.undo).2.undoStack = rest
          ∧ (d.undo).2.redoStack = d.originator :: d.redoStack)
    ∧ (∀ (d : Caretaker σ) (m : σ) (rest : List σ), d.redoStack = m :: rest →
        (d.redo).2.originator = m ∧ (d.redo).2.redoStack = rest
          ∧ (d.redo).2.undoStack = d.originator :: d.undoStack) := by
  refine ⟨?_, ?_, ?_⟩
  · have hn : countSaves ops = (runCare ops (init s0)).undoStack.length := by
      rw [runCare_undoStack_length]
      rfl
    rw [hn, undo_redo_roundtrip]
  · rintro ⟨s, u, r⟩ m rest h
    cases h
    exact ⟨rfl, rfl, rfl⟩
  · rintro ⟨s, u, r⟩ m rest h
    cases h
    exact ⟨rfl, rfl, rfl⟩

open Caretaker in
/-- Concrete instance of C1: two saves with a mutation in between over a
`Nat` state, plus a single undo and a single redo on concrete stacks. -/
theorem C1_undo_redo_inverse_witness :
    (redoStep^[countSaves [CareOp.save, CareOp.mutate (fun x => x + 5), CareOp.save]]
        (undoStep^[countSaves [CareOp.save, CareOp.mutate (fun x => x + 5), CareOp.save]]
          (runCare [CareOp.save, CareOp.mutate (fun x => x + 5), CareOp.save] (init (0 : Nat))))
      = runCare [CareOp.save, CareOp.mutate (fun x => x + 5), CareOp.save] (init 0))
    ∧ ((⟨5, [3], [7]⟩ : Caretaker Nat).undo).2.originator = 3
    ∧ ((⟨5, [3], [7]⟩ : Caretaker Nat).redo).2.originator = 7 :=
  ⟨(C1_undo_redo_inverse 0 [CareOp.save, CareOp.mutate (fun x => x + 5), CareOp.save]).1,
    ((C1_undo_redo_inverse 0 ([] : List (CareOp Nat))).2.1 ⟨5, [3], [7]⟩ 3 [] rfl).1,
    ((C1_undo_redo_inverse 0 ([] : List (CareOp Nat))).2.2 ⟨5, [3], [7]⟩ 7 [] rfl).1⟩

open Caretaker in
/-- Claim C2: every `save()` clears the redo stack; in particular after
`save(); save(); undo(); save()` the redo stack is empty, so a subsequent
`redo()` reports that there is no snapshot to restore (the source signals
this by returning `false`) and leaves the caretaker unchanged. -/
theorem C2_save_clears_redo {σ : Type} (c : Caretaker σ) :
    (c.save).redoStack = []
    ∧ ((((c.save.save).undo).2.save).redoStack = []
    ∧ (((c.save.save).undo).2.save).redo = (false, (((c.save.save).undo).2.save))) :=
  ⟨rfl, rfl, rfl⟩

open Caretaker in
/-- Claim C6: `undo()` (resp. `redo()`) on an empty undo (resp. redo)
stack reports that there is no snapshot (returning `false`), changes
neither stack nor the state of the owner, and a second call in the same
situation gives the same result again; the operations are total, so no
call can raise. -/
theorem C6_empty_undo_redo_noop {σ : Type} (c : Caretaker σ) :
    (c.undoStack = [] → c.undo = (false, c) ∧ ((c.undo).2).undo = (false, c))
    ∧ (c.redoStack = [] → c.redo = (false, c) ∧ ((c.redo).2).redo = (false, c)) := by
  obtain ⟨s, u, r⟩ := c
  constructor
  · intro h
    cases h
    exact ⟨rfl, rfl⟩
  · intro h
    cases h
    exact ⟨rfl, rfl⟩

open Caretaker in
/-- Concrete instance of C6 on a caretaker with two empty stacks. -/
theorem C6_empty_undo_redo_noop_witness :
    (⟨0, [], []⟩ : Caretaker Nat).undo = (false, ⟨0, [], []⟩)
    ∧ (⟨0, [], []⟩ : Caretaker Nat).redo = (false, ⟨0, [], []⟩) :=
  ⟨((C6_empty_undo_redo_noop ⟨0, [], []⟩).1 rfl).1,
    ((C6_empty_undo_redo_noop ⟨0, [], []⟩).2 rfl).1⟩

/-- Claim C8 is refuted by the source: on the caretaker with owner state 1
and undo stack [0], `undo()` returns the boolean `true` — not the popped
snapshot — and it has already restored the owner itself (the state of the
owner changes from 1 to 0 during the call), so nothing is left for the
caller to apply, contrary to the claim that the popped snapshot is
returned for the caller to apply. -/
theorem C8_counterexample :
    (Caretaker.undo (⟨1, [0], []⟩ : Caretaker Nat)).1 = true
    ∧ (Caretaker.undo (⟨1, [0], []⟩ : Caretaker Nat)).2.originator
        ≠ (⟨1, [0], []⟩ : Caretaker Nat).originator := by
  decide

/-- Claim C8 amended: on a non-empty undo stack, `undo()` pops the top
snapshot, pushes a freshly captured snapshot of the current state of the
owner onto the redo stack, restores the owner from the popped snapshot
itself, and returns the boolean `true` (not the snapshot). -/
theorem C8_undo_pops_restores {σ : Type} (c : Caretaker σ) (m : σ) (rest : List σ)
    (h : c.undoStack = m :: rest) :
    c.undo = (true, ⟨m, rest, c.originator :: c.redoStack⟩) := by
  obtain ⟨s, u, r⟩ := c
  cases h
  rfl

/-- Concrete instance of the amended C8. -/
theorem C8_undo_pops_restores_witness :
    (Caretaker.undo (⟨9, [4, 2], [7]⟩ : Caretaker Nat)) = (true, ⟨4, [2], [9, 7]⟩) :=
  C8_undo_pops_restores ⟨9, [4, 2], [7]⟩ 4 [2] rfl

end Memento

namespace OrderSM

/-!
Shallow embedding of the order-processing state machine of
src/18-mediator.js (State-pattern section, lines 342-729).

* The current state object of an order is one of seven stateless concrete
  `OrderState` subclasses; it is embedded as the enumeration
  `OrderStateName`, and `getName()` as `stateName` (the JavaScript
  constructor names).
* `Math.random()`-based outcomes of `checkAvailability`, `checkPayment`,
  `prepareForShipping` and `checkDelivery` are external inputs; each
  top-level `process()` call receives them as a `Checks` record.
* `new Date().toISOString()` timestamps are external inputs; each call
  that can append a history record receives the current time as a `Nat`.
* `refundPayment()` sets `paymentStatus` to "refunded" and emits its
  console message; the field `refundCalls` counts those emissions, i.e.
  the number of times `refundPayment()` has run.
-/

/-- The seven concrete `OrderState` classes. -/
inductive OrderStateName where
  | created
  | confirmed
  | paid
  | shipped
  | delivered
  | returned
  | cancelled
deriving Repr, DecidableEq

/-- `getName()` of each concrete state class (the constructor name). -/
def stateName : OrderStateName → String
  | .created => "CreatedState"
  | .confirmed => "ConfirmedState"
  | .paid => "PaidState"
  | .shipped => "ShippedState"
  | .delivered => "DeliveredState"
  | .returned => "ReturnedState"
  | .cancelled => "CancelledState"

/-- One history entry `{from, to, timestamp}` pushed by `setState`
(source lines 597-601); `from_` and `to_` embed the JavaScript fields
`from` and `to`, the timestamp is a `Nat` stand-in for the ISO string. -/
structure TransitionRecord where
  from_ : String
  to_ : String
  timestamp : Nat
deriving Repr, DecidableEq

/-- Outcomes of the randomized external checks consumed by one
`process()` call (`Math.random()` comparisons in the source). -/
structure Checks where
  available : Bool
  paid : Bool
  prepared : Bool
  delivered : Bool
deriving Repr, DecidableEq

/-- Shallow embedding of `Order` (source lines 576-729).  `stateV` is the
current state object `this.state`; `refundCalls` counts the executions of
`refundPayment()` (see the module comment). -/
structure Order where
  id : String
  items : List String
  stateV : OrderStateName
  paymentStatus : String
  shippingStatus : String
  deliveryStatus : String
  stateHistory : List TransitionRecord
  createdAt : Nat
  refundCalls : Nat
deriving Repr, DecidableEq

/-- `new Order(id, items)` (source lines 577-586). -/
def makeOrder (id : String) (items : List String) (now : Nat) : Order :=
  ⟨id, items, .created, "pending", "not_shipped", "not_delivered", [], now, 0⟩

namespace Order

/-- `setState(newState)` (source lines 592-604): swaps the current state
object and appends exactly one transition record. -/
def setState (o : Order) (newState : OrderStateName) (now : Nat) : Order :=
  { o with
    stateV := newState,
    stateHistory := o.stateHistory ++ [⟨stateName o.stateV, stateName newState, now⟩] }

/-- `refundPayment()` (source lines 683-686). -/
def refundPayment (o : Order) : Order :=
  { o with paymentStatus := "refunded", refundCalls := o.refundCalls + 1 }

/-- `process()` (source line 609) dispatching to the `process` method of
the current concrete state (source lines 388-399, 419-429, 449-459,
480-490, 509-511, 531-537, 556-558).  `checkPayment`, `prepareForShipping`
and `checkDelivery` update their status field exactly when the external
check succeeds.  Every branch ends without a `return` statement, so the
JavaScript return value is `undefined`, embedded as `none`. -/
def process (o : Order) (ck : Checks) (now : Nat) : Order × Option Bool :=
  match o.stateV with
  | .created =>
      (if ck.available then o.setState .confirmed now else o.setState .cancelled now, none)
  | .confirmed =>
      (if ck.paid then ({ o with paymentStatus := "paid" }).setState .paid now else o, none)
  | .paid =>
      (if ck.prepared then ({ o with shippingStatus := "ready" }).setState .shipped now else o,
        none)
  | .shipped =>
      (if ck.delivered then
          ({ o with deliveryStatus := "delivered" }).setState .delivered now
        else o, none)
  | .delivered => (o, none)
  | .returned => (o.refundPayment, none)
  | .cancelled => (o, none)

/-- `cancel()` (source line 616) dispatching to the `cancel` method of the
current concrete state (source lines 401-404, 431-434, 461-465, 492-494,
513-515, 539-541, 560-562).  From `Paid` the refund runs before the
transition.  The JavaScript return value is always `undefined` (`none`). -/
def cancel (o : Order) (now : Nat) : Order × Option Bool :=
  match o.stateV with
  | .created => (o.setState .cancelled now, none)
  | .confirmed => (o.setState .cancelled now, none)
  | .paid => ((o.refundPayment).setState .cancelled now, none)
  | .shipped => (o, none)
  | .delivered => (o, none)
  | .returned => (o, none)
  | .cancelled => (o, none)

/-- `return()` (source line 623) dispatching to the `return` method of
the current concrete state (source lines 406-408, 436-438, 467-469,
496-498, 517-520, 543-545, 564-566): only `DeliveredState` transitions
(to `Returned`, with no refund call); all other states only log.  The
JavaScript return value is always `undefined` (`none`). -/
def return_ (o : Order) (now : Nat) : Order × Option Bool :=
  match o.stateV with
  | .delivered => (o.setState .returned now, none)
  | _ => (o, none)

end Order

/-- One caller-visible operation on an order, with its external inputs. -/
inductive OrderOp where
  | process (ck : Checks) (now : Nat)
  | cancel (now : Nat)
  | return_ (now : Nat)

/-- The state effect and JavaScript return value of one operation. -/
def step (op : OrderOp) (o : Order) : Order × Option Bool :=
  match op with
  | .process ck now => o.process ck now
  | .cancel now => o.cancel now
  | .return_ now => o.return_ now

/-- Runs a sequence of operations left to right. -/
def runOps : List OrderOp → Order → Order
  | [], o => o
  | op :: ops, o => runOps ops (step op o).1

/-- Whether an operation is accepted (performs a transition, i.e. reaches
`setState`) in the current state, read off the branch structure of the
concrete state classes. -/
def accepts (o : Order) : OrderOp → Bool
  | .process ck _ =>
      match o.stateV with
      | .created => true
      | .confirmed => ck.paid
      | .paid => ck.prepared
      | .shipped => ck.delivered
      | _ => false
  | .cancel _ =>
      match o.stateV with
      | .created => true
      | .confirmed => true
      | .paid => true
      | _ => false
  | .return_ _ =>
      match o.stateV with
      | .delivered => true
      | _ => false

/-- Number of accepted operations along a run. -/
def acceptedCount : List OrderOp → Order → Nat
  | [], _ => 0
  | op :: ops, o => (if accepts o op then 1 else 0) + acceptedCount ops (step op o).1

/-- The timestamp input of an operation. -/
def opTime : OrderOp → Nat
  | .process _ now => now
  | .cancel now => now
  | .return_ now => now

theorem step_history_length (o : Order) (op : OrderOp) :
    (step op o).1.stateHistory.length
      = o.stateHistory.length + (if accepts o op then 1 else 0) := by
  cases op with
  | process ck now =>
    obtain ⟨av, pd, pr, dl⟩ := ck
    cases h : o.stateV <;> cases av <;> cases pd <;> cases pr <;> cases dl <;>
      simp [step, Order.process, Order.setState, Order.refundPayment, accepts, h]
  | cancel now =>
    cases h : o.stateV <;>
      simp [step, Order.cancel, Order.setState, Order.refundPayment, accepts, h]
  | return_ now =>
    cases h : o.stateV <;>
      simp [step, Order.return_, Order.setState, accepts, h]

theorem step_history_cases (o : Order) (op : OrderOp) :
    ((step op o).1.stateV = o.stateV ∧ (step op o).1.stateHistory = o.stateHistory)
    ∨ (step op o).1.stateHistory
        = o.stateHistory
          ++ [⟨stateName o.stateV, stateName (step op o).1.stateV, opTime op⟩] := by
  cases op with
  | process ck now =>
    obtain ⟨av, pd, pr, dl⟩ := ck
    cases h : o.stateV <;> cases av <;> cases pd <;> cases pr <;> cases dl <;>
      simp [step, Order.process, Order.setState, Order.refundPayment, opTime, h]
  | cancel now =>
    cases h : o.stateV <;>
      simp [step, Order.cancel, Order.setState, Order.refundPayment, opTime, h]
  | return_ now =>
    cases h : o.stateV <;>
      simp [step, Order.return_, Order.setState, opTime, h]

theorem step_history_append (o : Order) (op : OrderOp) :
    ∃ tail, (step op o).1.stateHistory = o.stateHistory ++ tail := by
  rcases step_history_cases o op with ⟨_, h⟩ | h
  · exact ⟨[], by rw [h, List.append_nil]⟩
  · exact ⟨_, h⟩

theorem runOps_history_append (ops : List OrderOp) :
    ∀ o : Order, ∃ tail, (runOps ops o).stateHistory = o.stateHistory ++ tail := by
  induction ops with
  | nil => intro o; exact ⟨[], by simp [runOps]⟩
  | cons op ops ih =>
    intro o
    obtain ⟨t1, h1⟩ := step_history_append o op
    obtain ⟨t2, h2⟩ := ih (step op o).1
    exact ⟨t1 ++ t2, by rw [runOps, h2, h1, List.append_assoc]⟩

theorem runOps_history_length (ops : List OrderOp) :
    ∀ o : Order, (runOps ops o).stateHistory.length
      = o.stateHistory.length + acceptedCount ops o := by
  induction ops with
  | nil => intro o; simp [runOps, acceptedCount]
  | cons op ops ih =>
    intro o
    rw [runOps, acceptedCount, ih, step_history_length]
    omega

/-- Claim C3: a single order operation either performs no transition and
leaves both the current state and the history untouched, or it performs
one accepted transition and appends exactly one record
`{from, to, timestamp}` matching it (`setState` being the only mutator of
the current state); across any operation sequence the history only grows
at the end (no record removed or rewritten) and its length equals exactly
the number of accepted transitions. -/
theorem C3_history_exact (o : Order) (op : OrderOp) (ops : List OrderOp) :
    (((step op o).1.stateV = o.stateV ∧ (step op o).1.stateHistory = o.stateHistory)
      ∨ (step op o).1.stateHistory
          = o.stateHistory
            ++ [⟨stateName o.stateV, stateName (step op o).1.stateV, opTime op⟩])
    ∧ (∃ tail, (runOps ops o).stateHistory = o.stateHistory ++ tail)
    ∧ (runOps ops o).stateHistory.length = o.stateHistory.length + acceptedCount ops o :=
  ⟨step_history_cases o op, runOps_history_append ops o, runOps_history_length ops o⟩

/-- Claim C4: `cancel()` transitions to `Cancelled` exactly from
`Created`, `Confirmed` and `Paid`; the refund (`refundPayment`) runs
exactly when cancelling from `Paid`; from `Shipped`, `Delivered`,
`Returned` and `Cancelled` the call is a logged no-op returning the order
completely unchanged (and `undefined`, i.e. `none`). -/
theorem C4_cancel_legality (o : Order) (now : Nat) :
    ((o.stateV = .created ∨ o.stateV = .confirmed ∨ o.stateV = .paid) →
        (o.cancel now).1.stateV = .cancelled)
    ∧ (o.cancel now).1.refundCalls
        = (if o.stateV = .paid then o.refundCalls + 1 else o.refundCalls)
    ∧ (o.cancel now).1.paymentStatus
        = (if o.stateV = .paid then "refunded" else o.paymentStatus)
    ∧ ((o.stateV = .shipped ∨ o.stateV = .delivered ∨ o.stateV = .returned
          ∨ o.stateV = .cancelled) →
        o.cancel now = (o, none)) := by
  cases h : o.stateV <;>
    simp [Order.cancel, Order.setState, Order.refundPayment, h]

/-- A concrete order in the `Paid` state. -/
def orderPaidEx : Order :=
  ⟨"ORD-001", ["Laptop"], .paid, "paid", "not_shipped", "not_delivered", [], 0, 0⟩

/-- A concrete order in the `Shipped` state. -/
def orderShippedEx : Order :=
  ⟨"ORD-002", [], .shipped, "paid", "ready", "not_delivered", [], 0, 0⟩

/-- A concrete order in the `Delivered` state. -/
def orderDeliveredEx : Order :=
  ⟨"ORD-003", [], .delivered, "paid", "ready", "delivered", [], 0, 0⟩

/-- A concrete order in the `Returned` state. -/
def orderReturnedEx : Order :=
  ⟨"ORD-004", [], .returned, "paid", "ready", "delivered", [], 0, 0⟩

/-- Concrete instance of C4: cancelling a paid order refunds and
cancels; cancelling a shipped order changes nothing. -/
theorem C4_cancel_legality_witness :
    (orderPaidEx.cancel 3).1.stateV = .cancelled
    ∧ (orderShippedEx.cancel 4) = (orderShippedEx, none) :=
  ⟨(C4_cancel_legality orderPaidEx 3).1 (Or.inr (Or.inr rfl)),
    (C4_cancel_legality orderShippedEx 4).2.2.2 (Or.inl rfl)⟩

/-- Claim C5 is refuted by the source: `return()` on a delivered order
does transition it to `Returned`, but triggers no refund — the payment
status is still "paid" and `refundPayment` has not run, contrary to the
claim that the transition triggers the refund (the refund only happens
when the returned order is subsequently processed, source lines 531-537;
`DeliveredState.return`, lines 517-520, never calls `refundPayment`). -/
theorem C5_counterexample :
    (orderDeliveredEx.return_ 5).1.stateV = .returned
    ∧ (orderDeliveredEx.return_ 5).1.paymentStatus = "paid"
    ∧ (orderDeliveredEx.return_ 5).1.refundCalls = 0 :=
  ⟨rfl, rfl, rfl⟩

/-- Claim C5 amended: `return()` transitions to `Returned` only from
`Delivered`, without itself triggering the refund (payment status and
refund count unchanged); the refund runs only when the returned order is
subsequently processed.  From every other state the return is rejected
with only a logged message: the order is unchanged and nothing is thrown
(the embedded operation is total). -/
theorem C5_return_legality (o : Order) (now now2 : Nat) (ck : Checks) :
    (o.stateV = .delivered →
        (o.return_ now).1.stateV = .returned
        ∧ (o.return_ now).1.paymentStatus = o.paymentStatus
        ∧ (o.return_ now).1.refundCalls = o.refundCalls
        ∧ ((o.return_ now).1.process ck now2).1.paymentStatus = "refunded"
        ∧ ((o.return_ now).1.process ck now2).1.refundCalls = o.refundCalls + 1)
    ∧ (o.stateV ≠ .delivered → o.return_ now = (o, none)) := by
  cases h : o.stateV <;>
    simp [Order.return_, Order.setState, Order.process, Order.refundPayment, h]

/-- Concrete instance of the amended C5. -/
theorem C5_return_legality_witness :
    ((orderDeliveredEx.return_ 1).1.process ⟨true, true, true, true⟩ 2).1.refundCalls
      = orderDeliveredEx.refundCalls + 1
    ∧ orderShippedEx.return_ 3 = (orderShippedEx, none) :=
  ⟨((C5_return_legality orderDeliveredEx 1 2 ⟨true, true, true, true⟩).1 rfl).2.2.2.2,
    (C5_return_legality orderShippedEx 3 0 ⟨true, true, true, true⟩).2 (by decide)⟩

/-- Claim C7 is refuted by the source: `cancel()` on a delivered order is
indeed a no-op that never throws, but the call returns `undefined`
(embedded as `none`) — not the result record `{accepted: false}` nor any
boolean flag — because `Order.cancel` (line 616) and
`DeliveredState.cancel` (lines 513-515) return nothing. -/
theorem C7_counterexample :
    (orderDeliveredEx.cancel 3).2 = none
    ∧ (orderDeliveredEx.cancel 3).2 ≠ some false
    ∧ (orderDeliveredEx.cancel 3).1 = orderDeliveredEx := by
  decide

/-- Claim C7 amended: invoking `process()`, `cancel()` or `return()` when
the operation is not valid for the current state never throws (the
embedded operations are total, mirroring the absence of any throw in the
concrete state handlers): the rejection is only logged, the order is left
completely unchanged, and the call returns `undefined` (`none`) — no
boolean/result flag; in particular `cancel()` on a delivered order leaves
the order unchanged and returns `undefined`. -/
theorem C7_rejection_semantics (o : Order) (ck : Checks) (now : Nat) :
    (o.process ck now).2 = none
    ∧ (o.cancel now).2 = none
    ∧ (o.return_ now).2 = none
    ∧ ((o.stateV = .shipped ∨ o.stateV = .delivered ∨ o.stateV = .returned
          ∨ o.stateV = .cancelled) → (o.cancel now).1 = o)
    ∧ (o.stateV ≠ .delivered → (o.return_ now).1 = o)
    ∧ ((o.stateV = .delivered ∨ o.stateV = .cancelled) → (o.process ck now).1 = o) := by
  cases h : o.stateV <;>
    simp [Order.process, Order.cancel, Order.return_, Order.setState, Order.refundPayment, h]

/-- Concrete instance of the amended C7 on a delivered order. -/
theorem C7_rejection_semantics_witness :
    (orderDeliveredEx.cancel 9).1 = orderDeliveredEx
    ∧ (orderDeliveredEx.cancel 9).2 = none
    ∧ (orderDeliveredEx.process ⟨true, true, true, true⟩ 9).1 = orderDeliveredEx :=
  ⟨(C7_rejection_semantics orderDeliveredEx ⟨true, true, true, true⟩ 9).2.2.2.1
      (Or.inr (Or.inl rfl)),
    (C7_rejection_semantics orderDeliveredEx ⟨true, true, true, true⟩ 9).2.1,
    (C7_rejection_semantics orderDeliveredEx ⟨true, true, true, true⟩ 9).2.2.2.2.2
      (Or.inl rfl)⟩

/-- Claim C9 concerns a code bug: `ReturnedState.process()` (source lines
531-537) calls `refundPayment()` unconditionally, so processing a
returned order twice runs the refund routine — the gateway side effect
and its console message — a second time (`refundCalls` goes 0, 1, 2),
with no idempotency guard; only the stored `paymentStatus` field happens
to end up the same ("refunded").  This contradicts the claimed
idempotent refund, and the specification itself flags it as a likely
latent bug. -/
theorem C9_double_refund_bug :
    (orderReturnedEx.process ⟨true, true, true, true⟩ 1).1.refundCalls = 1
    ∧ (orderReturnedEx.process ⟨true, true, true, true⟩ 1).1.paymentStatus = "refunded"
    ∧ ((orderReturnedEx.process ⟨true, true, true, true⟩ 1).1.process
        ⟨true, true, true, true⟩ 2).1.refundCalls = 2
    ∧ ((orderReturnedEx.process ⟨true, true, true, true⟩ 1).1.process
        ⟨true, true, true, true⟩ 2).1.paymentStatus = "refunded" :=
  ⟨rfl, rfl, rfl, rfl⟩

/-!
Reference-semantics model for claim C10.  `getStateHistory()` on `Order`
(source lines 708-710) and on the generic `Context` (lines 244-246) both
execute `return [...this.stateHistory]`.  Whether the returned array is a
fresh copy is a question about array identities, so arrays are modelled
by references into a heap: `Heap` is the array store (one cell per
allocated array of transition records), an array reference is the index
of its cell, `readArr`/`writeArr` are indexed access and in-place update,
and allocation appends a cell at the fresh index `h.length`.  The order
or context itself holds only the reference to its `stateHistory` cell, so
a call that neither writes any existing cell nor touches the record
leaves every field of the order/context intact.
-/

/-- The array store: cell `i` is the current contents of array `i`. -/
abbrev Heap : Type := List (List TransitionRecord)

/-- Reads the array cell at an index (out-of-range reads give `[]`). -/
def readArr : Heap → Nat → List TransitionRecord
  | [], _ => []
  | c :: _, 0 => c
  | _ :: cs, n + 1 => readArr cs n

/-- Overwrites the array cell at an index in place. -/
def writeArr : Heap → Nat → List TransitionRecord → Heap
  | [], _, _ => []
  | _ :: cs, 0, v => v :: cs
  | c :: cs, n + 1, v => c :: writeArr cs n v

/-- `getStateHistory()` = `return [...this.stateHistory]`: allocates a
fresh array (cell at the fresh index `h.length`) whose contents are a
copy of the stored history array, and returns its reference. -/
def getStateHistory (h : Heap) (histRef : Nat) : Nat × Heap :=
  (List.length h, h ++ [readArr h histRef])

theorem readArr_append_length (h : Heap) (v : List TransitionRecord) :
    readArr (h ++ [v]) (List.length h) = v := by
  induction h with
  | nil => rfl
  | cons c cs ih => simpa [readArr] using ih

theorem readArr_append_lt (h : Heap) (v : List TransitionRecord) :
    ∀ q, q < List.length h → readArr (h ++ [v]) q = readArr h q := by
  induction h with
  | nil => intro q hq; cases hq
  | cons c cs ih =>
    intro q hq
    cases q with
    | zero => rfl
    | succ q => exact ih q (Nat.lt_of_succ_lt_succ hq)

theorem readArr_write_ne (h : Heap) (m : Nat) (v : List TransitionRecord) :
    ∀ q, m ≠ q → readArr (writeArr h m v) q = readArr h q := by
  induction h generalizing m with
  | nil => intro q _; rfl
  | cons c cs ih =>
    intro q hne
    cases m with
    | zero =>
      cases q with
      | zero => exact absurd rfl hne
      | succ q => rfl
    | succ m =>
      cases q with
      | zero => rfl
      | succ q => exact ih m q (fun he => hne (by rw [he]))

/-- Claim C10: `getStateHistory()` returns a reference to a freshly
allocated array holding a copy of the transition history: the returned
array has the stored contents, its reference differs from the stored
reference, the call overwrites no existing array (so it mutates neither
the history nor any other field of the order/context), and writing
anything through the returned reference afterwards leaves the stored
history unchanged. -/
theorem C10_getStateHistory_fresh_copy (h : Heap) (r : Nat) (hr : r < List.length h) :
    readArr (getStateHistory h r).2 (getStateHistory h r).1 = readArr h r
    ∧ (getStateHistory h r).1 ≠ r
    ∧ (∀ q, q < List.length h → readArr (getStateHistory h r).2 q = readArr h q)
    ∧ (∀ v, readArr (writeArr (getStateHistory h r).2 (getStateHistory h r).1 v) r
        = readArr h r) := by
  refine ⟨readArr_append_length h (readArr h r), ?_, ?_, ?_⟩
  · exact fun he => absurd (he ▸ hr) (Nat.lt_irrefl _)
  · intro q hq
    exact readArr_append_lt h (readArr h r) q hq
  · intro v
    show readArr (writeArr (h ++ [readArr h r]) (List.length h) v) r = readArr h r
    rw [readArr_write_ne (h ++ [readArr h r]) (List.length h) v r
        (fun he => absurd (he ▸ hr) (Nat.lt_irrefl _))]
    exact readArr_append_lt h (readArr h r) r hr

/-- Concrete instance of C10 on a one-cell heap. -/
theorem C10_getStateHistory_fresh_copy_witness :
    readArr (getStateHistory [[⟨"CreatedState", "ConfirmedState", 1⟩]] 0).2
        (getStateHistory [[⟨"CreatedState", "ConfirmedState", 1⟩]] 0).1
      = readArr [[⟨"CreatedState", "ConfirmedState", 1⟩]] 0
    ∧ (getStateHistory [[⟨"CreatedState", "ConfirmedState", 1⟩]] 0).1 ≠ 0
    ∧ readArr (writeArr (getStateHistory [[⟨"CreatedState", "ConfirmedState", 1⟩]] 0).2
          (getStateHistory [[⟨"CreatedState", "ConfirmedState", 1⟩]] 0).1 []) 0
        = readArr [[⟨"CreatedState", "ConfirmedState", 1⟩]] 0 :=
  ⟨(C10_getStateHistory_fresh_copy [[⟨"CreatedState", "ConfirmedState", 1⟩]] 0
      (by decide)).1,
    (C10_getStateHistory_fresh_copy [[⟨"CreatedState", "ConfirmedState", 1⟩]] 0
      (by decide)).2.1,
    (C10_getStateHistory_fresh_copy [[⟨"CreatedState", "ConfirmedState", 1⟩]] 0
      (by decide)).2.2.2 []⟩

end OrderSM
